import Mathlib

/-!
Verification of the google-cloud resource reconcilers of the alchemy
repository: a shallow embedding of the Disk, ArtifactRegistry, FirewallRule
and Instance reconcile functions, the shared conflict-classifier predicates
and the zone/global operation pollers, together with theorems settling the
specified properties (deletion safety, conflict classification, update
idempotence, disk resize, replacement policy, adoption, delete-on-absent,
poll budget, name stability, input validation).

Remote interaction is modelled by an oracle record per resource kind: each
remote call site reads its response from the oracle, and every call issued
is appended to a call log, so "issues no remote call" is provable as a
statement about the log.
-/

namespace Alchemy

/-- Model of a JavaScript runtime value, sufficient for the error objects the
conflict classifiers inspect: primitives and plain objects with named fields. -/
inductive JSValue where
  | undef : JSValue
  | nullv : JSValue
  | bool (b : Bool) : JSValue
  | num (n : Int) : JSValue
  | str (s : String) : JSValue
  | obj (fields : List (String × JSValue)) : JSValue

/-- The `code` property of a JS value: present only on (non-null) objects,
first binding wins as for JS object keys. -/
def jsCode : JSValue → Option JSValue
  | .obj fields => fields.lookup "code"
  | _ => none

/-- `isNotFoundError` from `google-cloud/util.ts`: a truthy object whose
`code` field is the gRPC NOT_FOUND code 5 or HTTP 404. -/
def isNotFoundError (error : JSValue) : Bool :=
  match jsCode error with
  | some (.num code) => code == 5 || code == 404
  | _ => false

/-- `isAlreadyExistsError` from `google-cloud/util.ts`: a truthy object whose
`code` field is the gRPC ALREADY_EXISTS code 6 or HTTP 409. -/
def isAlreadyExistsError (error : JSValue) : Bool :=
  match jsCode error with
  | some (.num code) => code == 6 || code == 409
  | _ => false

/-- The private `isNotFoundError` at the bottom of `disk.ts`: HTTP 404 only. -/
def diskIsNotFoundError (error : JSValue) : Bool :=
  match jsCode error with
  | some (.num code) => code == 404
  | _ => false

/-- The private `isAlreadyExistsError` at the bottom of `disk.ts`: HTTP 409 only. -/
def diskIsAlreadyExistsError (error : JSValue) : Bool :=
  match jsCode error with
  | some (.num code) => code == 409
  | _ => false

/-- The private `isNotFoundError` at the bottom of `instance.ts`: HTTP 404 only. -/
def instanceIsNotFoundError (error : JSValue) : Bool :=
  match jsCode error with
  | some (.num code) => code == 404
  | _ => false

/-- Status of a long-running operation as observed by one poll:
anything other than "DONE" is non-terminal; "DONE" carries the
`operation.error.errors` list of (code, message) pairs (empty on success). -/
inductive OpStatus where
  | pending : OpStatus
  | done (errors : List (String × String)) : OpStatus

/-- Terminal outcome of a polling loop. -/
inductive PollResult where
  | success : PollResult
  | failed (errors : List (String × String)) : PollResult
  | timedOut (elapsedMs : Nat) : PollResult
deriving DecidableEq

/-- The poll loop body of `waitForZoneOperation`: starting at `attempt`, with
`remaining` iterations left, returns the terminal verdict (`none` when the
budget runs out) and the number of status checks performed. -/
def pollFrom (statusAt : Nat → OpStatus) (attempt : Nat) :
    Nat → Option (Except (List (String × String)) Unit) × Nat
  | 0 => (none, 0)
  | remaining + 1 =>
    match statusAt attempt with
    | .done errors =>
      if errors.isEmpty then (some (.ok ()), 1) else (some (.error errors), 1)
    | .pending =>
      let rest := pollFrom statusAt (attempt + 1) remaining
      (rest.1, rest.2 + 1)

/-- `waitForZoneOperation` from `google-cloud/util.ts` (the copies embedded in
`disk.ts` / `instance.ts` fix `maxAttempts = 60`, `delayMs = 5000`): polls the
operation status up to `maxAttempts` times; DONE with errors fails with the
aggregated (code, message) list, DONE without errors succeeds, and budget
exhaustion times out reporting `maxAttempts * delayMs` elapsed. Returns the
verdict together with the number of status checks performed. -/
def waitForZoneOperation (statusAt : Nat → OpStatus) (maxAttempts delayMs : Nat) :
    PollResult × Nat :=
  match pollFrom statusAt 0 maxAttempts with
  | (some (.ok ()), checks) => (.success, checks)
  | (some (.error errors), checks) => (.failed errors, checks)
  | (none, checks) => (.timedOut (maxAttempts * delayMs), checks)

/-- `waitForGlobalOperation` from `google-cloud/util.ts`: identical loop over a
global (zone-less) operations client. -/
def waitForGlobalOperation (statusAt : Nat → OpStatus) (maxAttempts delayMs : Nat) :
    PollResult × Nat :=
  match pollFrom statusAt 0 maxAttempts with
  | (some (.ok ()), checks) => (.success, checks)
  | (some (.error errors), checks) => (.failed errors, checks)
  | (none, checks) => (.timedOut (maxAttempts * delayMs), checks)

/-- Errors a reconciler can raise: local validation failures, the dedicated
already-exists failure (carrying the original conflict as cause), aggregated
operation failures, poll timeouts, and remote errors rethrown unchanged. -/
inductive Err where
  | validation (msg : String) : Err
  | alreadyExists (msg : String) (cause : JSValue) : Err
  | opFailed (errors : List (String × String)) : Err
  | opTimedOut (elapsedMs : Nat) : Err
  | remote (e : JSValue) : Err

/-- Outcome of one reconcile invocation: `this.destroy()`, `this.replace()`,
or a new recorded state. -/
inductive ROutcome (σ : Type) where
  | destroyed : ROutcome σ
  | replaced : ROutcome σ
  | state (s : σ) : ROutcome σ

/-- Reconciliation phase, supplied by the caller (`this.phase`). -/
inductive Phase where
  | create : Phase
  | update : Phase
  | delete : Phase
deriving DecidableEq

/-- JS truthiness of an optional string (`undefined` and `""` are falsy). -/
def strTruthy : Option String → Bool
  | some s => !s.isEmpty
  | none => false

/-- JS `x || d` on an optional string: falls back on `undefined` and `""`. -/
def strOr (v : Option String) (d : String) : String :=
  match v with
  | some s => if s.isEmpty then d else s
  | none => d

/-- JS `x || undefined` on an optional string: collapses `""` to `undefined`. -/
def strOrNone (v : Option String) : Option String :=
  match v with
  | some s => if s.isEmpty then none else some s
  | none => none

/-- Prepend already-issued calls to the log of the continuation result. -/
def withLog {α β : Type} (pre : List α) : Except Err β × List α → Except Err β × List α :=
  fun r => (r.1, pre ++ r.2)

/-- Shared name resolution used verbatim by every kind:
`props.name ?? this.output?.name ?? this.scope.createPhysicalName(id)`. -/
def resolveName (propsName : Option String) (outputName : Option String)
    (physicalName : String) : String :=
  propsName.getD (outputName.getD physicalName)

/-- Await a zone operation with the fixed budget used by the reconcilers
(60 attempts, 5000 ms apart), converting the verdict to an `Err`. -/
def awaitZoneOp (statusAt : Nat → OpStatus) : Except Err Unit :=
  match waitForZoneOperation statusAt 60 5000 with
  | (.success, _) => .ok ()
  | (.failed errors, _) => .error (.opFailed errors)
  | (.timedOut ms, _) => .error (.opTimedOut ms)

/-- Await a global operation with the budget used by `FirewallRule`
(60 attempts, 2000 ms apart). -/
def awaitGlobalOp (statusAt : Nat → OpStatus) : Except Err Unit :=
  match waitForGlobalOperation statusAt 60 2000 with
  | (.success, _) => .ok ()
  | (.failed errors, _) => .error (.opFailed errors)
  | (.timedOut ms, _) => .error (.opTimedOut ms)

/-- A long-running operation handle as returned by the compute mutation calls
(`operation.name` is polled when present). -/
structure Operation where
  name : Option String

/-- Message raised when no project could be resolved. -/
def projectRequiredMsg : String :=
  "Google Cloud project is required. Set GOOGLE_CLOUD_PROJECT environment variable or pass project in props."

/-- Disk size range validation message. -/
def diskSizeMsg (sizeGb : Int) : String :=
  s!"Disk size must be between 10 and 65536 GB, got {sizeGb}"

/-- Disk source exclusivity validation message. -/
def diskSourceMsg : String :=
  "sourceImage and sourceSnapshot are mutually exclusive"

/-- Disk shrink validation message. -/
def diskDecreaseMsg (fromGb toGb : Int) : String :=
  s!"Cannot decrease disk size from {fromGb} GB to {toGb} GB. Disk size can only be increased."

/-- Disk adoption-refused message. -/
def diskAlreadyExistsMsg (name : String) : String :=
  s!"Disk \"{name}\" already exists. Use adopt: true to adopt it."

/-- Repository adoption-refused message. -/
def arAlreadyExistsMsg (name : String) : String :=
  s!"Repository \"{name}\" already exists. Use adopt: true to adopt it."

/-- Firewall rule adoption-refused message. -/
def fwAlreadyExistsMsg (name : String) : String :=
  s!"Firewall rule \"{name}\" already exists. Use adopt: true to adopt it."

/-! ## Disk (`google-cloud/disk.ts`) -/

/-- `DiskProps`: caller-supplied desired configuration for a persistent disk. -/
structure DiskProps where
  name : Option String
  zone : String
  sizeGb : Int
  diskType : Option String
  sourceImage : Option String
  sourceSnapshot : Option String
  labels : Option (List (String × String))
  delete : Option Bool
  adopt : Option Bool

/-- `Disk` output: the recorded state returned by a successful reconcile. -/
structure DiskState where
  name : String
  zone : String
  project : String
  sizeGb : Int
  diskType : String
  sourceImage : Option String
  sourceSnapshot : Option String
  labels : Option (List (String × String))
  selfLink : String
  status : String
  createdAt : String

/-- Remote calls the Disk reconciler can issue. `waitOp` marks one invocation
of `waitForZoneOperation` on the named operation. -/
inductive DiskCall where
  | deleteDisk (disk : String) : DiskCall
  | insert (name : String) : DiskCall
  | resize (disk : String) (sizeGb : Int) : DiskCall
  | getDisk (disk : String) : DiskCall
  | setLabels (resource : String) : DiskCall
  | waitOp (op : String) : DiskCall
deriving DecidableEq

/-- Remote disk object as returned by `disksClient.get`. -/
structure DiskInfo where
  selfLink : Option String
  status : Option String
  creationTimestamp : Option String
  labels : Option (List (String × String))
  labelFingerprint : Option String

/-- Oracle for the Disk remote endpoint: the response each call site would
receive, plus the status sequence of each named operation. -/
structure DiskCloud where
  deleteRes : Except JSValue Operation
  insertRes : Except JSValue Operation
  resizeRes : Except JSValue Operation
  getRes : Except JSValue DiskInfo
  setLabelsRes : Except JSValue Operation
  opStatusAt : String → Nat → OpStatus

/-- Resolved disk name: `props.name ?? this.output?.name ?? physical name`. -/
def diskResolvedName (props : DiskProps) (output : Option DiskState)
    (physicalName : String) : String :=
  resolveName props.name (output.map (fun o => o.name)) physicalName

/-- The recorded state built from the final remote read (`disk.ts` lines
462-475). -/
def diskBuildState (name zone project : String) (sizeGb : Int) (diskType : String)
    (props : DiskProps) (now : String) (disk : DiskInfo) : DiskState :=
  { name := name
    zone := zone
    project := project
    sizeGb := sizeGb
    diskType := diskType
    sourceImage := props.sourceImage
    sourceSnapshot := props.sourceSnapshot
    labels := props.labels
    selfLink := strOr disk.selfLink ""
    status := strOr disk.status "READY"
    createdAt := strOr disk.creationTimestamp now }

/-- Update path of the Disk reconciler (`disk.ts` lines 346-388): read current
state, push labels when they differ from the current remote labels (awaiting
the operation), then re-read. -/
def diskUpdateFlow (name : String) (props : DiskProps) (cloud : DiskCloud) :
    Except Err DiskInfo × List DiskCall :=
  match cloud.getRes with
  | .error e => (.error (.remote e), [.getDisk name])
  | .ok current =>
    withLog [.getDisk name] <|
      let finalGet : Except Err DiskInfo × List DiskCall :=
        match cloud.getRes with
        | .error e => (.error (.remote e), [.getDisk name])
        | .ok updated => (.ok updated, [.getDisk name])
      match props.labels with
      | some desired =>
        if desired ≠ current.labels.getD [] then
          match cloud.setLabelsRes with
          | .error e => (.error (.remote e), [.setLabels name])
          | .ok op =>
            withLog [.setLabels name] <|
              match op.name with
              | some opName =>
                withLog [.waitOp opName] <|
                  match awaitZoneOp (cloud.opStatusAt opName) with
                  | .error err => (.error err, [])
                  | .ok _ => finalGet
              | none => finalGet
        else finalGet
      | none => finalGet

/-- The try block of the Disk create path (`disk.ts` lines 414-439): insert,
await the operation, read the created disk. -/
def diskCreateAttempt (name : String) (cloud : DiskCloud) :
    Except Err DiskInfo × List DiskCall :=
  let getStep : Except Err DiskInfo × List DiskCall :=
    match cloud.getRes with
    | .error e => (.error (.remote e), [.getDisk name])
    | .ok created => (.ok created, [.getDisk name])
  match cloud.insertRes with
  | .error e => (.error (.remote e), [.insert name])
  | .ok op =>
    withLog [.insert name] <|
      match op.name with
      | some opName =>
        withLog [.waitOp opName] <|
          match awaitZoneOp (cloud.opStatusAt opName) with
          | .error err => (.error err, [])
          | .ok _ => getStep
      | none => getStep

/-- The catch block around the Disk create attempt (`disk.ts` lines 440-459). -/
def diskCreateCatch (name : String) (props : DiskProps) (scopeAdopt : Option Bool)
    (cloud : DiskCloud) (attempt : Except Err DiskInfo × List DiskCall) :
    Except Err DiskInfo × List DiskCall :=
  match attempt with
  | (.error (.remote e), log) =>
    if diskIsAlreadyExistsError e then
      let adopt := props.adopt.getD (scopeAdopt.getD false)
      if !adopt then
        (.error (.alreadyExists (diskAlreadyExistsMsg name) e), log)
      else
        withLog log <|
          match cloud.getRes with
          | .error e2 => (.error (.remote e2), [.getDisk name])
          | .ok existing => (.ok existing, [.getDisk name])
    else (.error (.remote e), log)
  | other => other

/-- Create path of the Disk reconciler (`disk.ts` lines 390-459): the create
attempt under its catch block; an already-exists conflict is either adopted
(one read, no further create) or surfaced as a dedicated error with the
conflict as cause, depending on `props.adopt ?? this.scope.adopt`. -/
def diskCreateFlow (name : String) (props : DiskProps) (scopeAdopt : Option Bool)
    (cloud : DiskCloud) : Except Err DiskInfo × List DiskCall :=
  diskCreateCatch name props scopeAdopt cloud (diskCreateAttempt name cloud)

/-- The update-or-create trunk of the Disk reconciler (`disk.ts` lines
340-460 with the shared return value): update when `phase = update` and a
recorded name exists, create otherwise. -/
def diskTrunk (phase : Phase) (props : DiskProps) (output : Option DiskState)
    (scopeAdopt : Option Bool) (name zone project diskType : String) (sizeGb : Int)
    (now : String) (cloud : DiskCloud) :
    Except Err (ROutcome DiskState) × List DiskCall :=
  let flow :=
    if phase = Phase.update ∧ strTruthy (output.map (fun o => o.name)) then
      diskUpdateFlow name props cloud
    else
      diskCreateFlow name props scopeAdopt cloud
  (flow.1.map (fun d => .state (diskBuildState name zone project sizeGb diskType props now d)),
   flow.2)

/-- The resize branch of the Disk update checks (`disk.ts` lines 317-337
followed by the shared trunk): one resize call, awaited, then the
update-or-create trunk. -/
def diskResizeThenTrunk (phase : Phase) (props : DiskProps)
    (output : Option DiskState) (scopeAdopt : Option Bool)
    (name zone project diskType : String) (sizeGb : Int) (now : String)
    (cloud : DiskCloud) : Except Err (ROutcome DiskState) × List DiskCall :=
  match cloud.resizeRes with
  | .error e => (.error (.remote e), [.resize name sizeGb])
  | .ok op =>
    withLog [.resize name sizeGb] <|
      match op.name with
      | some opName =>
        withLog [.waitOp opName] <|
          match awaitZoneOp (cloud.opStatusAt opName) with
          | .error err => (.error err, [])
          | .ok _ =>
            diskTrunk phase props output scopeAdopt name zone project diskType
              sizeGb now cloud
      | none =>
        diskTrunk phase props output scopeAdopt name zone project diskType
          sizeGb now cloud

/-- The Disk reconciler (`disk.ts` lines 195-477). `physicalName` stands for
`this.scope.createPhysicalName(id)`, `project` for the resolved credentials
project, `now` for `new Date().toISOString()`. -/
def diskReconcile (phase : Phase) (props : DiskProps) (output : Option DiskState)
    (scopeAdopt : Option Bool) (physicalName project now : String)
    (cloud : DiskCloud) : Except Err (ROutcome DiskState) × List DiskCall :=
  if project.isEmpty then
    (.error (.validation projectRequiredMsg), [])
  else
  let name := diskResolvedName props output physicalName
  let zone := props.zone
  let diskType := props.diskType.getD "pd-standard"
  let sizeGb := props.sizeGb
  if sizeGb < 10 ∨ sizeGb > 65536 then
    (.error (.validation (diskSizeMsg sizeGb)), [])
  else if strTruthy props.sourceImage ∧ strTruthy props.sourceSnapshot then
    (.error (.validation diskSourceMsg), [])
  else
  match phase with
  | .delete =>
    -- `props.delete !== false && this.output?.name`
    if props.delete ≠ some false ∧ strTruthy (output.map (fun o => o.name)) then
      match output with
      | none => (.ok .destroyed, [])
      | some o =>
        match cloud.deleteRes with
        | .error e =>
          if diskIsNotFoundError e then (.ok .destroyed, [.deleteDisk o.name])
          else (.error (.remote e), [.deleteDisk o.name])
        | .ok op =>
          withLog [.deleteDisk o.name] <|
            match op.name with
            | some opName =>
              withLog [.waitOp opName] <|
                -- a poll failure carries no `code`, so the not-found test
                -- in the surrounding catch is false and it is rethrown
                match awaitZoneOp (cloud.opStatusAt opName) with
                | .error err => (.error err, [])
                | .ok _ => (.ok .destroyed, [])
            | none => (.ok .destroyed, [])
    else (.ok .destroyed, [])
  | _ =>
    match phase, output with
    | .update, some o =>
      if o.zone ≠ zone then (.ok .replaced, [])
      else if o.name ≠ name then (.ok .replaced, [])
      else if o.diskType ≠ diskType then (.ok .replaced, [])
      else if o.sizeGb ≠ sizeGb then
        if sizeGb < o.sizeGb then
          (.error (.validation (diskDecreaseMsg o.sizeGb sizeGb)), [])
        else
          diskResizeThenTrunk phase props output scopeAdopt name zone project
            diskType sizeGb now cloud
      else
        diskTrunk phase props output scopeAdopt name zone project diskType sizeGb
          now cloud
    | _, _ =>
      diskTrunk phase props output scopeAdopt name zone project diskType sizeGb
        now cloud

/-- The Disk replacement decision (`disk.ts` lines 288-309): true iff one of
the immutable attributes zone, name, diskType differs between desired
(resolved) and recorded values. -/
def diskRequiresReplacement (props : DiskProps) (o : DiskState)
    (physicalName : String) : Bool :=
  let name := diskResolvedName props (some o) physicalName
  let diskType := props.diskType.getD "pd-standard"
  o.zone != props.zone || o.name != name || o.diskType != diskType

/-! ## ArtifactRegistry (`google-cloud/artifact-registry.ts`) -/

/-- `ArtifactRegistryProps`: desired configuration for a repository. -/
structure ARProps where
  name : Option String
  adopt : Option Bool
  location : String
  format : Option String
  description : Option String
  labels : Option (List (String × String))
  immutableTags : Option Bool
  kmsKeyName : Option String
  delete : Option Bool

/-- `ArtifactRegistry` output: the recorded state. -/
structure ARState where
  name : String
  location : String
  project : String
  format : String
  description : Option String
  labels : Option (List (String × String))
  immutableTags : Option Bool
  kmsKeyName : Option String
  resourceName : String
  host : String
  createTime : String
  updateTime : String

/-- Remote calls the ArtifactRegistry reconciler can issue (each mutation
includes awaiting the promise of its returned long-running operation). -/
inductive ARCall where
  | deleteRepository (path : String) : ARCall
  | createRepository (repoId : String) : ARCall
  | getRepository (path : String) : ARCall
  | updateRepository (path : String) (mask : List String) : ARCall
deriving DecidableEq

/-- Remote repository object (the fields the reconciler reads back).
`createTime`/`updateTime` are the timestamp seconds. -/
structure ARRepo where
  name : Option String
  createTime : Option Int
  updateTime : Option Int

/-- Oracle for the ArtifactRegistry remote endpoint. -/
structure ARCloud where
  deleteRes : Except JSValue Unit
  createRes : Except JSValue ARRepo
  getRes : Except JSValue ARRepo
  updateRes : Except JSValue ARRepo

/-- `timestampToISOString`: zero/absent seconds fall back to `now`; the
rendering of `new Date(seconds * 1000).toISOString()` is abstracted to the
decimal seconds (only the branch structure matters to the claims). -/
def timestampToISOString (t : Option Int) (now : String) : String :=
  match t with
  | none => now
  | some seconds => if seconds = 0 then now else toString seconds

/-- Full resource path of a repository. -/
def arRepositoryPath (project location name : String) : String :=
  s!"projects/{project}/locations/{location}/repositories/{name}"

/-- Docker registry host for a repository. -/
def arHost (format location project name : String) : String :=
  if format = "docker" then s!"{location}-docker.pkg.dev/{project}/{name}"
  else s!"{location}-{format}.pkg.dev/{project}/{name}"

/-- Resolved repository name. -/
def arResolvedName (props : ARProps) (output : Option ARState)
    (physicalName : String) : String :=
  resolveName props.name (output.map (fun o => o.name)) physicalName

/-- Recorded state built on the non-local paths (`artifact-registry.ts`
lines 445-459). -/
def arBuildState (name location project format : String) (props : ARProps)
    (repositoryPath now : String) (repo : ARRepo) : ARState :=
  { name := name
    location := location
    project := project
    format := format
    description := props.description
    labels := props.labels
    immutableTags := props.immutableTags
    kmsKeyName := props.kmsKeyName
    resourceName := strOr repo.name repositoryPath
    host := arHost format location project name
    createTime := timestampToISOString repo.createTime now
    updateTime := timestampToISOString repo.updateTime now }

/-- Mock state returned by the local-development branch
(`artifact-registry.ts` lines 222-245). -/
def arMockState (name location project format : String) (props : ARProps)
    (output : Option ARState) (now : String) : ARState :=
  { name := name
    location := location
    project := project
    format := format
    description := props.description
    labels := props.labels
    immutableTags := props.immutableTags
    kmsKeyName := props.kmsKeyName
    resourceName := (output.map (fun o => o.resourceName)).getD
      s!"projects/{project}/locations/{location}/repositories/{name}"
    host := arHost format location project name
    createTime := (output.map (fun o => o.createTime)).getD now
    updateTime := now }

/-- The update mask built from *defined* mutable props (`artifact-registry.ts`
lines 331-356): definedness, not difference from recorded values, decides
membership. -/
def arUpdateMask (props : ARProps) (format : String) : List String :=
  (if props.description.isSome then ["description"] else []) ++
  (if props.labels.isSome then ["labels"] else []) ++
  (if props.immutableTags.isSome ∧ format = "docker" then
    ["docker_config.immutable_tags"] else [])

/-- Update-or-create trunk of the ArtifactRegistry reconciler
(`artifact-registry.ts` lines 321-437). -/
def arTrunk (phase : Phase) (props : ARProps) (output : Option ARState)
    (scopeAdopt : Option Bool) (name location format repositoryPath project now : String)
    (cloud : ARCloud) : Except Err (ROutcome ARState) × List ARCall :=
  let build := fun (repo : ARRepo) =>
    ROutcome.state (arBuildState name location project format props repositoryPath now repo)
  if phase = Phase.update ∧ strTruthy (output.map (fun o => o.name)) then
    let mask := arUpdateMask props format
    if mask.isEmpty then
      match cloud.getRes with
      | .error e => (.error (.remote e), [.getRepository repositoryPath])
      | .ok repo => (.ok (build repo), [.getRepository repositoryPath])
    else
      match cloud.updateRes with
      | .error e => (.error (.remote e), [.updateRepository repositoryPath mask])
      | .ok repo => (.ok (build repo), [.updateRepository repositoryPath mask])
  else
    match cloud.createRes with
    | .ok repo => (.ok (build repo), [.createRepository name])
    | .error e =>
      if isAlreadyExistsError e then
        let adopt := props.adopt.getD (scopeAdopt.getD false)
        if !adopt then
          (.error (.alreadyExists (arAlreadyExistsMsg name) e),
           [.createRepository name])
        else
          match cloud.getRes with
          | .error e2 =>
            (.error (.remote e2), [.createRepository name, .getRepository repositoryPath])
          | .ok repo =>
            (.ok (build repo), [.createRepository name, .getRepository repositoryPath])
      else (.error (.remote e), [.createRepository name])

/-- The ArtifactRegistry reconciler (`artifact-registry.ts` lines 198-461). -/
def arReconcile (phase : Phase) (props : ARProps) (output : Option ARState)
    (scopeAdopt : Option Bool) (scopeLocal : Bool) (physicalName project now : String)
    (cloud : ARCloud) : Except Err (ROutcome ARState) × List ARCall :=
  if project.isEmpty then
    (.error (.validation projectRequiredMsg), [])
  else
  let name := arResolvedName props output physicalName
  let location := props.location
  let format := props.format.getD "docker"
  if scopeLocal then
    (.ok (.state (arMockState name location project format props output now)), [])
  else
  let repositoryPath := arRepositoryPath project location name
  match phase with
  | .delete =>
    -- `props.delete === true && this.output?.name`
    if props.delete = some true ∧ strTruthy (output.map (fun o => o.name)) then
      match cloud.deleteRes with
      | .ok _ => (.ok .destroyed, [.deleteRepository repositoryPath])
      | .error e =>
        if isNotFoundError e then (.ok .destroyed, [.deleteRepository repositoryPath])
        else (.error (.remote e), [.deleteRepository repositoryPath])
    else (.ok .destroyed, [])
  | _ =>
    match phase, output with
    | .update, some o =>
      if o.location ≠ location then (.ok .replaced, [])
      else if o.name ≠ name then (.ok .replaced, [])
      else if o.format ≠ format then (.ok .replaced, [])
      else if strTruthy props.kmsKeyName ∧ o.kmsKeyName ≠ props.kmsKeyName then
        (.ok .replaced, [])
      else
        arTrunk phase props output scopeAdopt name location format repositoryPath
          project now cloud
    | _, _ =>
      arTrunk phase props output scopeAdopt name location format repositoryPath
        project now cloud

/-! ## FirewallRule (`google-cloud/firewall-rule.ts`, shared util imports) -/

/-- An allowed/denied traffic entry: protocol and optional port list. -/
structure FwTraffic where
  protocol : String
  ports : Option (List String)

/-- `FirewallRuleProps`: desired configuration for a VPC firewall rule. -/
structure FwProps where
  name : Option String
  network : Option String
  direction : Option String
  priority : Option Int
  sourceRanges : Option (List String)
  destinationRanges : Option (List String)
  sourceTags : Option (List String)
  targetTags : Option (List String)
  allowed : Option (List FwTraffic)
  denied : Option (List FwTraffic)
  description : Option String
  disabled : Option Bool
  adopt : Option Bool

/-- `FirewallRule` output: the recorded state. -/
structure FwState where
  name : String
  project : String
  network : String
  direction : String
  priority : Int
  sourceRanges : Option (List String)
  destinationRanges : Option (List String)
  sourceTags : Option (List String)
  targetTags : Option (List String)
  allowed : Option (List FwTraffic)
  denied : Option (List FwTraffic)
  description : Option String
  disabled : Option Bool
  selfLink : String
  createdAt : String

/-- Remote calls the FirewallRule reconciler can issue. -/
inductive FwCall where
  | deleteFirewall (firewall : String) : FwCall
  | insert (name : String) : FwCall
  | update (firewall : String) : FwCall
  | getFirewall (firewall : String) : FwCall
  | waitOp (op : String) : FwCall
deriving DecidableEq

/-- Remote firewall object fields the reconciler reads back. -/
structure FwInfo where
  selfLink : Option String
  creationTimestamp : Option String

/-- Oracle for the firewall remote endpoint. -/
structure FwCloud where
  deleteRes : Except JSValue Operation
  insertRes : Except JSValue Operation
  updateRes : Except JSValue Operation
  getRes : Except JSValue FwInfo
  opStatusAt : String → Nat → OpStatus

/-- Resolved firewall rule name. -/
def fwResolvedName (props : FwProps) (output : Option FwState)
    (physicalName : String) : String :=
  resolveName props.name (output.map (fun o => o.name)) physicalName

/-- Recorded state built from the final remote read (firewall source lines
545-562). -/
def fwBuildState (name project network direction : String) (priority : Int)
    (props : FwProps) (now : String) (firewall : FwInfo) : FwState :=
  { name := name
    project := project
    network := network
    direction := direction
    priority := priority
    sourceRanges := props.sourceRanges
    destinationRanges := props.destinationRanges
    sourceTags := props.sourceTags
    targetTags := props.targetTags
    allowed := props.allowed
    denied := props.denied
    description := props.description
    disabled := props.disabled
    selfLink := strOr firewall.selfLink ""
    createdAt := strOr firewall.creationTimestamp now }

/-- Mock state returned by the local-development branch (firewall source
lines 345-366). -/
def fwMockState (name project network direction : String) (priority : Int)
    (props : FwProps) (output : Option FwState) (now : String) : FwState :=
  { name := name
    project := project
    network := network
    direction := direction
    priority := priority
    sourceRanges := props.sourceRanges
    destinationRanges := props.destinationRanges
    sourceTags := props.sourceTags
    targetTags := props.targetTags
    allowed := props.allowed
    denied := props.denied
    description := props.description
    disabled := props.disabled
    selfLink := (output.map (fun o => o.selfLink)).getD
      s!"https://www.googleapis.com/compute/v1/projects/{project}/global/firewalls/{name}"
    createdAt := (output.map (fun o => o.createdAt)).getD now }

/-- Update path of the FirewallRule reconciler (firewall source lines
478-498): one unconditional `update` call, awaited, then a re-read. -/
def fwUpdateFlow (name : String) (cloud : FwCloud) :
    Except Err FwInfo × List FwCall :=
  let getStep : Except Err FwInfo × List FwCall :=
    match cloud.getRes with
    | .error e => (.error (.remote e), [.getFirewall name])
    | .ok fw => (.ok fw, [.getFirewall name])
  match cloud.updateRes with
  | .error e => (.error (.remote e), [.update name])
  | .ok op =>
    withLog [.update name] <|
      match op.name with
      | some opName =>
        withLog [.waitOp opName] <|
          match awaitGlobalOp (cloud.opStatusAt opName) with
          | .error err => (.error err, [])
          | .ok _ => getStep
      | none => getStep

/-- Create path of the FirewallRule reconciler (firewall source lines
499-542): insert, await, read back; an already-exists conflict is adopted or
surfaced depending on `props.adopt ?? this.scope.adopt`. -/
def fwCreateFlow (name : String) (props : FwProps) (scopeAdopt : Option Bool)
    (cloud : FwCloud) : Except Err FwInfo × List FwCall :=
  let getStep : Except Err FwInfo × List FwCall :=
    match cloud.getRes with
    | .error e => (.error (.remote e), [.getFirewall name])
    | .ok fw => (.ok fw, [.getFirewall name])
  let attempt : Except Err FwInfo × List FwCall :=
    match cloud.insertRes with
    | .error e => (.error (.remote e), [.insert name])
    | .ok op =>
      withLog [.insert name] <|
        match op.name with
        | some opName =>
          withLog [.waitOp opName] <|
            match awaitGlobalOp (cloud.opStatusAt opName) with
            | .error err => (.error err, [])
            | .ok _ => getStep
        | none => getStep
  match attempt with
  | (.error (.remote e), log) =>
    if isAlreadyExistsError e then
      let adopt := props.adopt.getD (scopeAdopt.getD false)
      if !adopt then
        (.error (.alreadyExists (fwAlreadyExistsMsg name) e), log)
      else
        withLog log <|
          match cloud.getRes with
          | .error e2 => (.error (.remote e2), [.getFirewall name])
          | .ok fw => (.ok fw, [.getFirewall name])
    else (.error (.remote e), log)
  | other => other

/-- Update-or-create trunk of the FirewallRule reconciler (firewall source
lines 476-543 with the shared return value). -/
def fwTrunk (phase : Phase) (props : FwProps) (output : Option FwState)
    (scopeAdopt : Option Bool) (name project network direction : String)
    (priority : Int) (now : String) (cloud : FwCloud) :
    Except Err (ROutcome FwState) × List FwCall :=
  let flow :=
    if phase = Phase.update ∧ strTruthy (output.map (fun o => o.name)) then
      fwUpdateFlow name cloud
    else
      fwCreateFlow name props scopeAdopt cloud
  (flow.1.map (fun fw =>
    .state (fwBuildState name project network direction priority props now fw)),
   flow.2)

/-- The FirewallRule reconciler (firewall source lines 320-564). -/
def fwReconcile (phase : Phase) (props : FwProps) (output : Option FwState)
    (scopeAdopt : Option Bool) (scopeLocal : Bool) (physicalName project now : String)
    (cloud : FwCloud) : Except Err (ROutcome FwState) × List FwCall :=
  if project.isEmpty then
    (.error (.validation projectRequiredMsg), [])
  else
  let name := fwResolvedName props output physicalName
  let network := props.network.getD "default"
  let direction := props.direction.getD "INGRESS"
  let priority := props.priority.getD 1000
  if scopeLocal then
    (.ok (.state (fwMockState name project network direction priority props output now)),
     [])
  else
  match phase with
  | .delete =>
    if strTruthy (output.map (fun o => o.name)) then
      match output with
      | none => (.ok .destroyed, [])
      | some o =>
        match cloud.deleteRes with
        | .error e =>
          if isNotFoundError e then (.ok .destroyed, [.deleteFirewall o.name])
          else (.error (.remote e), [.deleteFirewall o.name])
        | .ok op =>
          withLog [.deleteFirewall o.name] <|
            match op.name with
            | some opName =>
              withLog [.waitOp opName] <|
                match awaitGlobalOp (cloud.opStatusAt opName) with
                | .error err => (.error err, [])
                | .ok _ => (.ok .destroyed, [])
            | none => (.ok .destroyed, [])
    else (.ok .destroyed, [])
  | _ =>
    match phase, output with
    | .update, some o =>
      if o.name ≠ name then (.ok .replaced, [])
      else if o.network ≠ network then (.ok .replaced, [])
      else if o.direction ≠ direction then (.ok .replaced, [])
      else
        fwTrunk phase props output scopeAdopt name project network direction
          priority now cloud
    | _, _ =>
      fwTrunk phase props output scopeAdopt name project network direction
        priority now cloud

/-- The FirewallRule replacement decision (firewall source lines 415-434):
true iff one of name, network, direction differs. -/
def fwRequiresReplacement (props : FwProps) (o : FwState)
    (physicalName : String) : Bool :=
  let name := fwResolvedName props (some o) physicalName
  let network := props.network.getD "default"
  let direction := props.direction.getD "INGRESS"
  o.name != name || o.network != network || o.direction != direction

/-! ## Instance (`google-cloud/instance.ts`) -/

/-- Container configuration, collapsed to its resolved image reference
(`resolveImageRef` returns `container.image` for a string image and the
repo digest / image ref for an `Image` resource; only the resolved string
feeds the comparisons in the reconciler). -/
structure ContainerCfg where
  imageRef : String

/-- `InstanceProps`: desired configuration for a VM instance. -/
structure InstProps where
  name : Option String
  zone : String
  machineType : Option String
  sourceImage : Option String
  diskSizeGb : Option Int
  diskType : Option String
  network : Option String
  assignExternalIp : Option Bool
  startupScript : Option String
  labels : Option (List (String × String))
  tags : Option (List String)
  container : Option ContainerCfg
  serviceAccountScopes : Option (List String)

/-- `Instance` output: the recorded state. -/
structure InstState where
  name : String
  zone : String
  project : String
  machineType : String
  sourceImage : String
  diskSizeGb : Int
  diskType : String
  network : String
  assignExternalIp : Bool
  startupScript : Option String
  labels : Option (List (String × String))
  tags : Option (List String)
  container : Option ContainerCfg
  serviceAccountScopes : Option (List String)
  selfLink : String
  status : String
  internalIp : Option String
  externalIp : Option String
  createdAt : String

/-- Remote calls the Instance reconciler can issue. -/
inductive InstCall where
  | deleteInstance (inst : String) : InstCall
  | insert (name : String) : InstCall
  | getInstance (inst : String) : InstCall
  | setLabels (inst : String) : InstCall
  | setTags (inst : String) : InstCall
  | waitOp (op : String) : InstCall
deriving DecidableEq

/-- Remote instance object fields the reconciler reads back. -/
structure InstInfo where
  selfLink : Option String
  status : Option String
  creationTimestamp : Option String
  labels : Option (List (String × String))
  labelFingerprint : Option String
  tagsItems : Option (List String)
  networkIP : Option String
  natIP : Option String

/-- Oracle for the Instance remote endpoint. -/
structure InstCloud where
  deleteRes : Except JSValue Operation
  insertRes : Except JSValue Operation
  setLabelsRes : Except JSValue Operation
  setTagsRes : Except JSValue Operation
  getRes : Except JSValue InstInfo
  opStatusAt : String → Nat → OpStatus

/-- Boot image of Container-Optimized OS used for container deployments. -/
def cosImage : String := "projects/cos-cloud/global/images/family/cos-stable"

/-- Resolved instance name. -/
def instanceResolvedName (props : InstProps) (output : Option InstState)
    (physicalName : String) : String :=
  resolveName props.name (output.map (fun o => o.name)) physicalName

/-- Insert a string into a sorted list (JS default `Array.sort` comparison is
lexicographic on the string rendering, which for string arrays is `<`). -/
def insertSorted (s : String) : List String → List String
  | [] => [s]
  | t :: ts => if s < t then s :: t :: ts else t :: insertSorted s ts

/-- Sort a string list, modelling JS `array.sort()`. -/
def sortStrings : List String → List String
  | [] => []
  | s :: ss => insertSorted s (sortStrings ss)

/-- Recorded state built from the final remote read (`instance.ts` lines
762-788). -/
def instanceBuildState (name zone project machineType sourceImage : String)
    (diskSizeGb : Int) (diskType network : String) (assignExternalIp : Bool)
    (props : InstProps) (now : String) (inst : InstInfo) : InstState :=
  { name := name
    zone := zone
    project := project
    machineType := machineType
    sourceImage := sourceImage
    diskSizeGb := diskSizeGb
    diskType := diskType
    network := network
    assignExternalIp := assignExternalIp
    startupScript := if props.container.isSome then none else props.startupScript
    labels := props.labels
    tags := props.tags
    container := props.container
    serviceAccountScopes := props.serviceAccountScopes
    selfLink := strOr inst.selfLink ""
    status := strOr inst.status "RUNNING"
    internalIp := strOrNone inst.networkIP
    externalIp := strOrNone inst.natIP
    createdAt := strOr inst.creationTimestamp now }

/-- Update path of the Instance reconciler (`instance.ts` lines 652-730):
read the current instance, push labels when they differ from the current
remote labels, push tags when the sorted lists differ, then re-read. -/
def instanceUpdateFlow (name : String) (props : InstProps) (cloud : InstCloud) :
    Except Err InstInfo × List InstCall :=
  match cloud.getRes with
  | .error e => (.error (.remote e), [.getInstance name])
  | .ok current =>
    withLog [.getInstance name] <|
      let tagsStep : Except Err InstInfo × List InstCall :=
        let finalGet : Except Err InstInfo × List InstCall :=
          match cloud.getRes with
          | .error e => (.error (.remote e), [.getInstance name])
          | .ok updated => (.ok updated, [.getInstance name])
        match props.tags with
        | some desired =>
          if sortStrings desired ≠ sortStrings (current.tagsItems.getD []) then
            match cloud.setTagsRes with
            | .error e => (.error (.remote e), [.setTags name])
            | .ok op =>
              withLog [.setTags name] <|
                match op.name with
                | some opName =>
                  withLog [.waitOp opName] <|
                    match awaitZoneOp (cloud.opStatusAt opName) with
                    | .error err => (.error err, [])
                    | .ok _ => finalGet
                | none => finalGet
          else finalGet
        | none => finalGet
      match props.labels with
      | some desired =>
        if desired ≠ current.labels.getD [] then
          match cloud.setLabelsRes with
          | .error e => (.error (.remote e), [.setLabels name])
          | .ok op =>
            withLog [.setLabels name] <|
              match op.name with
              | some opName =>
                withLog [.waitOp opName] <|
                  match awaitZoneOp (cloud.opStatusAt opName) with
                  | .error err => (.error err, [])
                  | .ok _ => tagsStep
              | none => tagsStep
        else tagsStep
      | none => tagsStep

/-- Create path of the Instance reconciler (`instance.ts` lines 731-760):
insert, await, read back; unlike Disk, no already-exists handling. -/
def instanceCreateFlow (name : String) (cloud : InstCloud) :
    Except Err InstInfo × List InstCall :=
  let getStep : Except Err InstInfo × List InstCall :=
    match cloud.getRes with
    | .error e => (.error (.remote e), [.getInstance name])
    | .ok created => (.ok created, [.getInstance name])
  match cloud.insertRes with
  | .error e => (.error (.remote e), [.insert name])
  | .ok op =>
    withLog [.insert name] <|
      match op.name with
      | some opName =>
        withLog [.waitOp opName] <|
          match awaitZoneOp (cloud.opStatusAt opName) with
          | .error err => (.error err, [])
          | .ok _ => getStep
      | none => getStep

/-- The Instance reconciler (`instance.ts` lines 453-790). -/
def instanceReconcile (phase : Phase) (props : InstProps) (output : Option InstState)
    (physicalName project now : String) (cloud : InstCloud) :
    Except Err (ROutcome InstState) × List InstCall :=
  if project.isEmpty then
    (.error (.validation projectRequiredMsg), [])
  else
  let name := instanceResolvedName props output physicalName
  let zone := props.zone
  let machineType := props.machineType.getD "e2-medium"
  let containerImageRef := props.container.map (fun c => c.imageRef)
  let sourceImage :=
    if props.container.isSome then cosImage
    else props.sourceImage.getD "projects/debian-cloud/global/images/family/debian-11"
  let diskSizeGb := props.diskSizeGb.getD 10
  let diskType := props.diskType.getD "pd-standard"
  let network := props.network.getD "default"
  let assignExternalIp := props.assignExternalIp.getD true
  match phase with
  | .delete =>
    if strTruthy (output.map (fun o => o.name)) then
      match output with
      | none => (.ok .destroyed, [])
      | some o =>
        match cloud.deleteRes with
        | .error e =>
          if instanceIsNotFoundError e then (.ok .destroyed, [.deleteInstance o.name])
          else (.error (.remote e), [.deleteInstance o.name])
        | .ok op =>
          withLog [.deleteInstance o.name] <|
            match op.name with
            | some opName =>
              withLog [.waitOp opName] <|
                match awaitZoneOp (cloud.opStatusAt opName) with
                | .error err => (.error err, [])
                | .ok _ => (.ok .destroyed, [])
            | none => (.ok .destroyed, [])
    else (.ok .destroyed, [])
  | _ =>
    let trunk : Except Err (ROutcome InstState) × List InstCall :=
      let flow :=
        if phase = Phase.update ∧ strTruthy (output.map (fun o => o.name)) then
          instanceUpdateFlow name props cloud
        else
          instanceCreateFlow name cloud
      (flow.1.map (fun d =>
        .state (instanceBuildState name zone project machineType sourceImage
          diskSizeGb diskType network assignExternalIp props now d)),
       flow.2)
    match phase, output with
    | .update, some o =>
      if o.zone ≠ zone then (.ok .replaced, [])
      else if o.name ≠ name then (.ok .replaced, [])
      else if containerImageRef ≠ (o.container.map (fun c => c.imageRef)) then
        (.ok .replaced, [])
      else if props.container.isSome ≠ o.container.isSome then (.ok .replaced, [])
      else trunk
    | _, _ => trunk

/-! ## Call classification and sample inputs -/

/-- A Disk call that mutates the remote system (everything except reads and
operation polling). -/
def isDiskMutation : DiskCall → Bool
  | .getDisk _ => false
  | .waitOp _ => false
  | _ => true

/-- Number of remote mutation calls in a Disk call log. -/
def diskMutationCount (log : List DiskCall) : Nat :=
  log.countP isDiskMutation

/-- Whether a Disk call is a resize. -/
def isResizeCall : DiskCall → Bool
  | .resize _ _ => true
  | _ => false

/-- Number of resize calls in a Disk call log. -/
def diskResizeCount (log : List DiskCall) : Nat :=
  log.countP isResizeCall

/-- An Instance call that mutates the remote system. -/
def isInstanceMutation : InstCall → Bool
  | .getInstance _ => false
  | .waitOp _ => false
  | _ => true

/-- Number of remote mutation calls in an Instance call log. -/
def instanceMutationCount (log : List InstCall) : Nat :=
  log.countP isInstanceMutation

/-- An ArtifactRegistry call that mutates the remote system. -/
def isARMutation : ARCall → Bool
  | .getRepository _ => false
  | _ => true

/-- Number of remote mutation calls in an ArtifactRegistry call log. -/
def arMutationCount (log : List ARCall) : Nat :=
  log.countP isARMutation

/-- An HTTP 404 error object. -/
def httpNotFound : JSValue := .obj [("code", .num 404)]

/-- An HTTP 409 conflict error object. -/
def httpConflict : JSValue := .obj [("code", .num 409)]

/-- A gRPC NOT_FOUND (code 5) error object. -/
def rpcNotFound : JSValue := .obj [("code", .num 5)]

/-- A gRPC ALREADY_EXISTS (code 6) error object. -/
def rpcAlreadyExists : JSValue := .obj [("code", .num 6)]

/-- An all-successful Disk oracle with anonymous operations. -/
def trivialDiskCloud : DiskCloud :=
  { deleteRes := .ok { name := none }
    insertRes := .ok { name := none }
    resizeRes := .ok { name := none }
    getRes := .ok { selfLink := none, status := none, creationTimestamp := none,
                    labels := none, labelFingerprint := none }
    setLabelsRes := .ok { name := none }
    opStatusAt := fun _ _ => .done [] }

/-- An all-successful ArtifactRegistry oracle. -/
def trivialARCloud : ARCloud :=
  { deleteRes := .ok ()
    createRes := .ok { name := none, createTime := none, updateTime := none }
    getRes := .ok { name := none, createTime := none, updateTime := none }
    updateRes := .ok { name := none, createTime := none, updateTime := none } }

/-- An all-successful firewall oracle with anonymous operations. -/
def trivialFwCloud : FwCloud :=
  { deleteRes := .ok { name := none }
    insertRes := .ok { name := none }
    updateRes := .ok { name := none }
    getRes := .ok { selfLink := none, creationTimestamp := none }
    opStatusAt := fun _ _ => .done [] }

/-- An all-successful Instance oracle with anonymous operations. -/
def trivialInstCloud : InstCloud :=
  { deleteRes := .ok { name := none }
    insertRes := .ok { name := none }
    setLabelsRes := .ok { name := none }
    setTagsRes := .ok { name := none }
    getRes := .ok { selfLink := none, status := none, creationTimestamp := none,
                    labels := none, labelFingerprint := none, tagsItems := none,
                    networkIP := none, natIP := none }
    opStatusAt := fun _ _ => .done [] }

/-- Sample desired Disk configuration. -/
def sampleDiskProps : DiskProps :=
  { name := some "d1", zone := "z1", sizeGb := 100, diskType := some "pd-ssd",
    sourceImage := none, sourceSnapshot := none, labels := none,
    delete := some true, adopt := none }

/-- Sample recorded Disk state matching `sampleDiskProps`. -/
def sampleDiskState : DiskState :=
  { name := "d1", zone := "z1", project := "p1", sizeGb := 100,
    diskType := "pd-ssd", sourceImage := none, sourceSnapshot := none,
    labels := none, selfLink := "s", status := "READY", createdAt := "t" }

/-- Sample desired repository configuration (no mutable props supplied). -/
def sampleARProps : ARProps :=
  { name := some "r1", adopt := none, location := "us-central1",
    format := some "docker", description := none, labels := none,
    immutableTags := none, kmsKeyName := none, delete := some true }

/-- Sample recorded repository state matching `sampleARProps`. -/
def sampleARState : ARState :=
  { name := "r1", location := "us-central1", project := "p1",
    format := "docker", description := none, labels := none,
    immutableTags := none, kmsKeyName := none, resourceName := "rn",
    host := "h", createTime := "t", updateTime := "t" }

/-- Sample desired firewall configuration. -/
def sampleFwProps : FwProps :=
  { name := some "f1", network := none, direction := none, priority := none,
    sourceRanges := none, destinationRanges := none, sourceTags := none,
    targetTags := none, allowed := none, denied := none, description := none,
    disabled := none, adopt := none }

/-- Sample recorded firewall state matching `sampleFwProps`. -/
def sampleFwState : FwState :=
  { name := "f1", project := "p1", network := "default",
    direction := "INGRESS", priority := 1000, sourceRanges := none,
    destinationRanges := none, sourceTags := none, targetTags := none,
    allowed := none, denied := none, description := none, disabled := none,
    selfLink := "s", createdAt := "t" }

/-- Sample desired instance configuration. -/
def sampleInstProps : InstProps :=
  { name := some "i1", zone := "z1", machineType := none, sourceImage := none,
    diskSizeGb := none, diskType := none, network := none,
    assignExternalIp := none, startupScript := none, labels := none,
    tags := none, container := none, serviceAccountScopes := none }

/-- Sample recorded instance state matching `sampleInstProps`. -/
def sampleInstState : InstState :=
  { name := "i1", zone := "z1", project := "p1", machineType := "e2-medium",
    sourceImage := "projects/debian-cloud/global/images/family/debian-11",
    diskSizeGb := 10, diskType := "pd-standard", network := "default",
    assignExternalIp := true, startupScript := none, labels := none,
    tags := none, container := none, serviceAccountScopes := none,
    selfLink := "s", status := "RUNNING", internalIp := none,
    externalIp := none, createdAt := "t" }

/-- Desired Disk configuration for the deletion-safety scenario: the `delete`
flag is left absent (the documented default is "preserve"). -/
def diskDeleteDefaultProps : DiskProps :=
  { name := some "data-disk", zone := "us-central1-a", sizeGb := 100,
    diskType := some "pd-ssd", sourceImage := none, sourceSnapshot := none,
    labels := none, delete := none, adopt := none }

/-- Recorded Disk state for the deletion-safety scenario. -/
def diskDeleteDefaultState : DiskState :=
  { name := "data-disk", zone := "us-central1-a", project := "p1",
    sizeGb := 100, diskType := "pd-ssd", sourceImage := none,
    sourceSnapshot := none, labels := none, selfLink := "s",
    status := "READY", createdAt := "t" }

/-- Desired repository configuration with the `delete` flag absent. -/
def arDeleteDefaultProps : ARProps :=
  { name := some "images", adopt := none, location := "us-central1",
    format := some "docker", description := none, labels := none,
    immutableTags := none, kmsKeyName := none, delete := none }

/-- Recorded repository state for the deletion-safety scenario. -/
def arDeleteDefaultState : ARState :=
  { name := "images", location := "us-central1", project := "p1",
    format := "docker", description := none, labels := none,
    immutableTags := none, kmsKeyName := none, resourceName := "rn",
    host := "h", createTime := "t", updateTime := "t" }

/-- Desired repository configuration whose `description` equals the recorded
one (used for the idempotence scenario). -/
def arSameDescProps : ARProps :=
  { name := some "r1", adopt := none, location := "us-central1",
    format := some "docker", description := some "docs", labels := none,
    immutableTags := none, kmsKeyName := none, delete := none }

/-- Recorded repository state with the same `description` as
`arSameDescProps`. -/
def arSameDescState : ARState :=
  { name := "r1", location := "us-central1", project := "p1",
    format := "docker", description := some "docs", labels := none,
    immutableTags := none, kmsKeyName := none, resourceName := "rn",
    host := "h", createTime := "t", updateTime := "t" }

/-- Desired Disk configuration asking for a smaller size and a different zone
at once (used for the resize-ordering scenario). -/
def diskShrinkAndMoveProps : DiskProps :=
  { name := some "d1", zone := "z2", sizeGb := 10, diskType := some "pd-ssd",
    sourceImage := none, sourceSnapshot := none, labels := none,
    delete := none, adopt := none }

/-! ## Helper lemmas -/

/-- A poll loop fed only non-terminal statuses exhausts its whole budget,
performing one status check per remaining attempt. -/
theorem pollFrom_all_pending (statusAt : Nat → OpStatus) :
    ∀ (remaining attempt : Nat),
      (∀ i, i < remaining → statusAt (attempt + i) = .pending) →
      pollFrom statusAt attempt remaining = (none, remaining) := by
  intro remaining
  induction remaining with
  | zero => intro attempt _; rfl
  | succ n ih =>
    intro attempt h
    have h0 : statusAt attempt = .pending := by
      have := h 0 (Nat.succ_pos n)
      simpa using this
    have ihx : pollFrom statusAt (attempt + 1) n = (none, n) := by
      refine ih (attempt + 1) (fun i hi => ?_)
      have := h (i + 1) (Nat.succ_lt_succ hi)
      simpa [Nat.add_assoc, Nat.add_comm 1 i] using this
    simp [pollFrom, h0, ihx]

/-- Mapping a state-builder over a flow result can never produce `replaced`. -/
theorem exceptMap_state_ne_replaced {σ α : Type} (r : Except Err α) (f : α → σ) :
    Except.map (fun d => ROutcome.state (f d)) r ≠ .ok .replaced := by
  cases r <;> simp [Except.map]

/-- The Disk update-or-create trunk never yields `replaced`. -/
theorem diskTrunk_fst_ne_replaced (phase : Phase) (props : DiskProps)
    (output : Option DiskState) (scopeAdopt : Option Bool)
    (name zone project diskType : String) (sizeGb : Int) (now : String)
    (cloud : DiskCloud) :
    (diskTrunk phase props output scopeAdopt name zone project diskType sizeGb
      now cloud).1 ≠ .ok .replaced := by
  unfold diskTrunk
  exact exceptMap_state_ne_replaced _ _

/-- The Disk resize branch never yields `replaced`. -/
theorem diskResizeThenTrunk_fst_ne_replaced (phase : Phase) (props : DiskProps)
    (output : Option DiskState) (scopeAdopt : Option Bool)
    (name zone project diskType : String) (sizeGb : Int) (now : String)
    (cloud : DiskCloud) :
    (diskResizeThenTrunk phase props output scopeAdopt name zone project diskType
      sizeGb now cloud).1 ≠ .ok .replaced := by
  unfold diskResizeThenTrunk
  rcases hr : cloud.resizeRes with e | op
  · simp [hr]
  · rcases hn : op.name with _ | opName
    · simp only [hr, hn, withLog]
      exact diskTrunk_fst_ne_replaced phase props output scopeAdopt name zone
        project diskType sizeGb now cloud
    · rcases hw : awaitZoneOp (cloud.opStatusAt opName) with err | u
      · simp [hr, hn, hw, withLog]
      · simp only [hr, hn, hw, withLog]
        exact diskTrunk_fst_ne_replaced phase props output scopeAdopt name zone
          project diskType sizeGb now cloud

/-- The FirewallRule update-or-create trunk never yields `replaced`. -/
theorem fwTrunk_fst_ne_replaced (phase : Phase) (props : FwProps)
    (output : Option FwState) (scopeAdopt : Option Bool)
    (name project network direction : String) (priority : Int) (now : String)
    (cloud : FwCloud) :
    (fwTrunk phase props output scopeAdopt name project network direction
      priority now cloud).1 ≠ .ok .replaced := by
  unfold fwTrunk
  exact exceptMap_state_ne_replaced _ _

/-- Truthiness of a present optional string. -/
theorem strTruthy_some (s : String) : strTruthy (some s) = !s.isEmpty := rfl

/-- The poller wrapper only raises operation failures or timeouts, never a
raw remote error. -/
theorem awaitZoneOp_ne_remote (statusAt : Nat → OpStatus) (e : JSValue) :
    awaitZoneOp statusAt ≠ .error (.remote e) := by
  unfold awaitZoneOp
  split <;> simp

/-- The Disk update path never resizes. -/
theorem diskUpdateFlow_resizeCount (name : String) (props : DiskProps)
    (cloud : DiskCloud) :
    diskResizeCount (diskUpdateFlow name props cloud).2 = 0 := by
  unfold diskUpdateFlow
  rcases hg : cloud.getRes with e | cur
  · simp [diskResizeCount, isResizeCall]
  · rcases hl : props.labels with _ | desired
    · simp [hg, hl, withLog, diskResizeCount, isResizeCall]
    · by_cases heq : desired = cur.labels.getD []
      · simp [hg, hl, heq, withLog, diskResizeCount, isResizeCall]
      · rcases hs : cloud.setLabelsRes with e2 | op
        · simp [hg, hl, heq, hs, withLog, diskResizeCount, isResizeCall]
        · rcases hop : op.name with _ | opName
          · simp [hg, hl, heq, hs, hop, withLog, diskResizeCount, isResizeCall]
          · rcases hw : awaitZoneOp (cloud.opStatusAt opName) with err | u <;>
              simp [hg, hl, heq, hs, hop, hw, withLog, diskResizeCount, isResizeCall]

/-- The Disk create attempt never resizes. -/
theorem diskCreateAttempt_resizeCount (name : String) (cloud : DiskCloud) :
    diskResizeCount (diskCreateAttempt name cloud).2 = 0 := by
  unfold diskCreateAttempt
  rcases hi : cloud.insertRes with e | op
  · simp [diskResizeCount, isResizeCall]
  · rcases hop : op.name with _ | opName
    · rcases hg : cloud.getRes with e2 | d <;>
        simp [hi, hop, hg, withLog, diskResizeCount, isResizeCall]
    · rcases hw : awaitZoneOp (cloud.opStatusAt opName) with err | u
      · simp [hi, hop, hw, withLog, diskResizeCount, isResizeCall]
      · rcases hg : cloud.getRes with e2 | d <;>
          simp [hi, hop, hw, hg, withLog, diskResizeCount, isResizeCall]

/-- The catch block around the Disk create attempt adds at most a read. -/
theorem diskCreateCatch_resizeCount (name : String) (props : DiskProps)
    (scopeAdopt : Option Bool) (cloud : DiskCloud)
    (attempt : Except Err DiskInfo × List DiskCall)
    (h : diskResizeCount attempt.2 = 0) :
    diskResizeCount (diskCreateCatch name props scopeAdopt cloud attempt).2 = 0 := by
  unfold diskCreateCatch
  rcases attempt with ⟨res, log⟩
  rcases res with err | d
  · rcases err with msg | mc | errs | ms | ev
    · simpa using h
    · simpa using h
    · simpa using h
    · simpa using h
    · by_cases hae : diskIsAlreadyExistsError ev = true
      · by_cases hadopt : (props.adopt.getD (scopeAdopt.getD false)) = true
        · rcases hg : cloud.getRes with e2 | d2 <;>
            simp_all [hg, withLog, diskResizeCount, isResizeCall]
        · simp_all
      · simpa [hae] using h
  · simpa using h

/-- The Disk create path never resizes. -/
theorem diskCreateFlow_resizeCount (name : String) (props : DiskProps)
    (scopeAdopt : Option Bool) (cloud : DiskCloud) :
    diskResizeCount (diskCreateFlow name props scopeAdopt cloud).2 = 0 := by
  unfold diskCreateFlow
  exact diskCreateCatch_resizeCount name props scopeAdopt cloud _
    (diskCreateAttempt_resizeCount name cloud)

/-- The Disk update-or-create trunk never resizes. -/
theorem diskTrunk_resizeCount (phase : Phase) (props : DiskProps)
    (output : Option DiskState) (scopeAdopt : Option Bool)
    (name zone project diskType : String) (sizeGb : Int) (now : String)
    (cloud : DiskCloud) :
    diskResizeCount (diskTrunk phase props output scopeAdopt name zone project
      diskType sizeGb now cloud).2 = 0 := by
  unfold diskTrunk
  by_cases hc : phase = Phase.update ∧ strTruthy (output.map (fun o => o.name)) = true
  · simpa [if_pos hc] using diskUpdateFlow_resizeCount name props cloud
  · simpa [if_neg hc] using diskCreateFlow_resizeCount name props scopeAdopt cloud

/-- The resize branch issues exactly one resize, as its first call, and when
the resize operation carries a name, the await on it is the second call. -/
theorem diskResizeThenTrunk_log (phase : Phase) (props : DiskProps)
    (output : Option DiskState) (scopeAdopt : Option Bool)
    (name zone project diskType : String) (sizeGb : Int) (now : String)
    (cloud : DiskCloud) :
    diskResizeCount (diskResizeThenTrunk phase props output scopeAdopt name zone
      project diskType sizeGb now cloud).2 = 1 ∧
    (diskResizeThenTrunk phase props output scopeAdopt name zone project diskType
      sizeGb now cloud).2.head? = some (.resize name sizeGb) ∧
    (∀ op opName, cloud.resizeRes = .ok op → op.name = some opName →
      ((diskResizeThenTrunk phase props output scopeAdopt name zone project
        diskType sizeGb now cloud).2)[1]? = some (.waitOp opName)) := by
  unfold diskResizeThenTrunk
  rcases hr : cloud.resizeRes with e | op
  · refine ⟨by simp [diskResizeCount, isResizeCall], by simp, ?_⟩
    intro op opName hop _
    simp at hop
  · rcases hop : op.name with _ | opName
    · refine ⟨?_, ?_, ?_⟩
      · have ht := diskTrunk_resizeCount phase props output scopeAdopt name zone
          project diskType sizeGb now cloud
        simp [hop, withLog, diskResizeCount, isResizeCall, List.countP_append] at ht ⊢
        simpa [diskResizeCount] using ht
      · simp [hop, withLog]
      · intro op2 opName hop2 hname
        injection hop2 with h2
        subst h2
        rw [hop] at hname
        simp at hname
    · rcases hw : awaitZoneOp (cloud.opStatusAt opName) with err | u
      · refine ⟨?_, ?_, ?_⟩
        · simp [hop, hw, withLog, diskResizeCount, isResizeCall]
        · simp [hop, hw, withLog]
        · intro op2 opName2 hop2 hname
          injection hop2 with h2
          subst h2
          rw [hop] at hname
          injection hname with h3
          subst h3
          simp [hop, hw, withLog]
      · refine ⟨?_, ?_, ?_⟩
        · have ht := diskTrunk_resizeCount phase props output scopeAdopt name zone
            project diskType sizeGb now cloud
          simp [hop, hw, withLog, diskResizeCount, isResizeCall,
            List.countP_append] at ht ⊢
          simpa [diskResizeCount] using ht
        · simp [hop, hw, withLog]
        · intro op2 opName2 hop2 hname
          injection hop2 with h2
          subst h2
          rw [hop] at hname
          injection hname with h3
          subst h3
          simp [hop, hw, withLog]

/-! ## Claims -/

/-- C2 (counterexample): the private classifier in `disk.ts` does not
recognise the gRPC NOT_FOUND code 5, although the shared classifier in
`util.ts` does — so it does not match "the code-space equivalents of both
transports" as the claim states for every classifier the spec covers. -/
theorem diskLocalClassifierMissesRpcCode :
    diskIsNotFoundError rpcNotFound = false ∧ isNotFoundError rpcNotFound = true :=
  ⟨rfl, rfl⟩

/-- C2 (amended): the shared `util.ts` predicates return true exactly on the
code-space equivalents of both transports (5/404 resp. 6/409); the private
copies in `disk.ts` and `instance.ts` return true exactly on the HTTP codes
(404 resp. 409); all five are total (never raise) and return false on every
unclassifiable input — non-objects, null, objects without a `code` field, or
any other code. -/
theorem conflictClassifierCodeSpaces (e : JSValue) :
    (isNotFoundError e = true ↔
      (jsCode e = some (.num 5) ∨ jsCode e = some (.num 404))) ∧
    (isAlreadyExistsError e = true ↔
      (jsCode e = some (.num 6) ∨ jsCode e = some (.num 409))) ∧
    (diskIsNotFoundError e = true ↔ jsCode e = some (.num 404)) ∧
    (diskIsAlreadyExistsError e = true ↔ jsCode e = some (.num 409)) ∧
    (instanceIsNotFoundError e = true ↔ jsCode e = some (.num 404)) := by
  rcases h : jsCode e with _ | v
  · simp [isNotFoundError, isAlreadyExistsError, diskIsNotFoundError,
      diskIsAlreadyExistsError, instanceIsNotFoundError, h]
  · cases v <;>
      simp [isNotFoundError, isAlreadyExistsError, diskIsNotFoundError,
        diskIsAlreadyExistsError, instanceIsNotFoundError, h]

/-- C8: the operation poller checks the status exactly `maxAttempts` times on
an all-non-terminal sequence and then times out reporting the elapsed budget
`maxAttempts * delayMs`; a terminal success returns after a single check, and
a terminal failure raises the aggregated (code, message) list after a single
check, with no further polling. -/
theorem waitForZoneOperation_budget (statusAt : Nat → OpStatus)
    (maxAttempts delayMs : Nat) :
    ((∀ i, i < maxAttempts → statusAt i = .pending) →
      waitForZoneOperation statusAt maxAttempts delayMs
        = (.timedOut (maxAttempts * delayMs), maxAttempts)) ∧
    (0 < maxAttempts → statusAt 0 = .done [] →
      waitForZoneOperation statusAt maxAttempts delayMs = (.success, 1)) ∧
    (∀ errors, errors ≠ [] → 0 < maxAttempts → statusAt 0 = .done errors →
      waitForZoneOperation statusAt maxAttempts delayMs = (.failed errors, 1)) := by
  refine ⟨?_, ?_, ?_⟩
  · intro h
    have hp : pollFrom statusAt 0 maxAttempts = (none, maxAttempts) := by
      refine pollFrom_all_pending statusAt maxAttempts 0 (fun i hi => ?_)
      simpa using h i hi
    simp [waitForZoneOperation, hp]
  · intro hpos h0
    cases maxAttempts with
    | zero => exact absurd hpos (lt_irrefl 0)
    | succ n => simp [waitForZoneOperation, pollFrom, h0]
  · intro errors hne hpos h0
    cases maxAttempts with
    | zero => exact absurd hpos (lt_irrefl 0)
    | succ n =>
      have hemp : errors.isEmpty = false := by
        cases errors with
        | nil => exact absurd rfl hne
        | cons a l => rfl
      simp [waitForZoneOperation, pollFrom, h0, hemp]

/-- C8 witness: with a three-attempt budget over a never-terminal operation,
exactly three checks happen and the reported budget is 3 × 5 ms. -/
theorem waitForZoneOperation_budget_witness :
    waitForZoneOperation (fun _ => .pending) 3 5 = (.timedOut 15, 3) :=
  (waitForZoneOperation_budget (fun _ => .pending) 3 5).1 (fun _ _ => rfl)

/-- C1: evaluating the Disk reconciler at `phase = delete` with the `delete`
flag *absent* shows the remote delete call being issued (the guard is
`props.delete !== false`, so `undefined` authorizes deletion), contradicting
the claim and the own `@default false` documentation of the Disk resource; the
ArtifactRegistry reconciler (guard `props.delete === true`) issues no call on
the same input. -/
theorem diskDeleteIssuedWithDefaultFlag :
    diskReconcile .delete diskDeleteDefaultProps (some diskDeleteDefaultState)
        none "phys" "p1" "now" trivialDiskCloud
      = (.ok .destroyed, [.deleteDisk "data-disk"]) ∧
    arReconcile .delete arDeleteDefaultProps (some arDeleteDefaultState)
        none false "phys" "p1" "now" trivialARCloud
      = (.ok .destroyed, []) :=
  ⟨rfl, rfl⟩

/-- C10: the Disk reconciler runs its local input validation before the phase
dispatch, so in every phase — delete included — a size outside [10, 65536]
or a configuration with both `sourceImage` and `sourceSnapshot` set fails
with a validation error and an empty call log: no remote call is issued and
`destroy()` is never reached. -/
theorem diskValidatesInEveryPhase (phase : Phase) (props : DiskProps)
    (output : Option DiskState) (scopeAdopt : Option Bool)
    (physicalName project now : String) (cloud : DiskCloud)
    (hproj : project.isEmpty = false) :
    ((props.sizeGb < 10 ∨ props.sizeGb > 65536) →
      diskReconcile phase props output scopeAdopt physicalName project now cloud
        = (.error (.validation (diskSizeMsg props.sizeGb)), [])) ∧
    (¬(props.sizeGb < 10 ∨ props.sizeGb > 65536) →
      strTruthy props.sourceImage = true → strTruthy props.sourceSnapshot = true →
      diskReconcile phase props output scopeAdopt physicalName project now cloud
        = (.error (.validation diskSourceMsg), [])) := by
  constructor
  · intro h
    simp [diskReconcile, hproj, h]
  · intro h hsi hss
    simp [diskReconcile, hproj, h, hsi, hss]

/-- C10 witness: a delete request for a disk with `sizeGb = 5` fails
validation with no remote call issued. -/
theorem diskValidatesInEveryPhase_witness :
    diskReconcile .delete { diskDeleteDefaultProps with sizeGb := 5 }
        (some diskDeleteDefaultState) none "phys" "p1" "now" trivialDiskCloud
      = (.error (.validation (diskSizeMsg 5)), []) :=
  (diskValidatesInEveryPhase .delete { diskDeleteDefaultProps with sizeGb := 5 }
    (some diskDeleteDefaultState) none "phys" "p1" "now" trivialDiskCloud rfl).1
    (Or.inl (by decide))

/-- C9: for every kind, when `props.name` is absent and Recorded State
exists, the resolved resource name is exactly the recorded name (resolution
order `props.name ?? recorded name ?? generated physical name`), so an
update omitting `name` cannot generate a fresh physical name nor trip the
name-mismatch replacement check (which compares the recorded name with this
resolved name). -/
theorem resolvedNameStability (dp : DiskProps) (ap : ARProps) (fp : FwProps)
    (ip : InstProps) (od : DiskState) (oa : ARState) (ow : FwState)
    (oi : InstState) (physicalName : String)
    (hd : dp.name = none) (ha : ap.name = none) (hf : fp.name = none)
    (hi : ip.name = none) :
    diskResolvedName dp (some od) physicalName = od.name ∧
    arResolvedName ap (some oa) physicalName = oa.name ∧
    fwResolvedName fp (some ow) physicalName = ow.name ∧
    instanceResolvedName ip (some oi) physicalName = oi.name := by
  simp [diskResolvedName, arResolvedName, fwResolvedName, instanceResolvedName,
    resolveName, hd, ha, hf, hi]

/-- C9 witness: concrete resolution at the sample states. -/
theorem resolvedNameStability_witness :
    diskResolvedName { sampleDiskProps with name := none }
        (some sampleDiskState) "ph" = sampleDiskState.name ∧
    arResolvedName { sampleARProps with name := none }
        (some sampleARState) "ph" = sampleARState.name ∧
    fwResolvedName { sampleFwProps with name := none }
        (some sampleFwState) "ph" = sampleFwState.name ∧
    instanceResolvedName { sampleInstProps with name := none }
        (some sampleInstState) "ph" = sampleInstState.name :=
  resolvedNameStability _ _ _ _ _ _ _ _ "ph" rfl rfl rfl rfl

/-- C6: when a create attempt fails with an already-exists conflict, the
effective adopt decision is `adoptFlag ?? scopeDefaultAdopt ?? false`; when
it is false the reconciler fails with the dedicated already-exists error
carrying the original conflict as cause (no state is returned, and the only
call issued was the failed create); when it is true the existing remote
object is read exactly once and becomes the returned state, with no second
create and no mutation. Shown for Disk and ArtifactRegistry. -/
theorem adoptionPolicy
    (dprops : DiskProps) (dsa : Option Bool) (dcloud : DiskCloud)
    (aprops : ARProps) (asa : Option Bool) (acloud : ARCloud)
    (physicalName project now : String) (hproj : project.isEmpty = false)
    (hdsize : ¬(dprops.sizeGb < 10 ∨ dprops.sizeGb > 65536))
    (hdsrc : ¬(strTruthy dprops.sourceImage = true ∧ strTruthy dprops.sourceSnapshot = true))
    (de ae : JSValue)
    (hd : dcloud.insertRes = .error de) (hdae : diskIsAlreadyExistsError de = true)
    (ha : acloud.createRes = .error ae) (haae : isAlreadyExistsError ae = true) :
    ((dprops.adopt.getD (dsa.getD false) = false →
      diskReconcile .create dprops none dsa physicalName project now dcloud
        = (.error (.alreadyExists
            (diskAlreadyExistsMsg (diskResolvedName dprops none physicalName)) de),
           [.insert (diskResolvedName dprops none physicalName)])) ∧
     (∀ d, dprops.adopt.getD (dsa.getD false) = true → dcloud.getRes = .ok d →
      diskReconcile .create dprops none dsa physicalName project now dcloud
        = (.ok (.state (diskBuildState (diskResolvedName dprops none physicalName)
            dprops.zone project dprops.sizeGb (dprops.diskType.getD "pd-standard")
            dprops now d)),
           [.insert (diskResolvedName dprops none physicalName),
            .getDisk (diskResolvedName dprops none physicalName)]))) ∧
    ((aprops.adopt.getD (asa.getD false) = false →
      arReconcile .create aprops none asa false physicalName project now acloud
        = (.error (.alreadyExists
            (arAlreadyExistsMsg (arResolvedName aprops none physicalName)) ae),
           [.createRepository (arResolvedName aprops none physicalName)])) ∧
     (∀ repo, aprops.adopt.getD (asa.getD false) = true → acloud.getRes = .ok repo →
      arReconcile .create aprops none asa false physicalName project now acloud
        = (.ok (.state (arBuildState (arResolvedName aprops none physicalName)
            aprops.location project (aprops.format.getD "docker") aprops
            (arRepositoryPath project aprops.location
              (arResolvedName aprops none physicalName)) now repo)),
           [.createRepository (arResolvedName aprops none physicalName),
            .getRepository (arRepositoryPath project aprops.location
              (arResolvedName aprops none physicalName))]))) := by
  refine ⟨⟨?_, ?_⟩, ?_, ?_⟩
  · intro hadopt
    simp [diskReconcile, diskTrunk, diskCreateFlow, diskCreateAttempt,
      diskCreateCatch, hproj, if_neg hdsize, if_neg hdsrc, hd, hdae, hadopt,
      withLog, Except.map]
  · intro d hadopt hget
    simp [diskReconcile, diskTrunk, diskCreateFlow, diskCreateAttempt,
      diskCreateCatch, hproj, if_neg hdsize, if_neg hdsrc, hd, hdae, hadopt,
      hget, withLog, Except.map]
  · intro hadopt
    simp [arReconcile, arTrunk, hproj, ha, haae, hadopt]
  · intro repo hadopt hget
    simp [arReconcile, arTrunk, hproj, ha, haae, hadopt, hget]

/-- C6 witness: a Disk create conflict with adoption disabled surfaces the
dedicated error after the single failed insert; with adoption enabled the
repository conflict resolves to one read of the existing repository. -/
theorem adoptionPolicy_witness :
    (diskReconcile .create sampleDiskProps none none "ph" "p1" "now"
      { trivialDiskCloud with insertRes := .error httpConflict }
        = (.error (.alreadyExists (diskAlreadyExistsMsg "d1") httpConflict),
           [.insert "d1"])) ∧
    (arReconcile .create { sampleARProps with adopt := some true } none none false
      "ph" "p1" "now" { trivialARCloud with createRes := .error rpcAlreadyExists }
        = (.ok (.state (arBuildState "r1" "us-central1" "p1" "docker"
            { sampleARProps with adopt := some true }
            (arRepositoryPath "p1" "us-central1" "r1") "now"
            { name := none, createTime := none, updateTime := none })),
           [.createRepository "r1", .getRepository (arRepositoryPath "p1" "us-central1" "r1")])) := by
  have h := adoptionPolicy sampleDiskProps none
    { trivialDiskCloud with insertRes := .error httpConflict }
    { sampleARProps with adopt := some true } none
    { trivialARCloud with createRes := .error rpcAlreadyExists }
    "ph" "p1" "now" rfl (by decide) (by decide) httpConflict rpcAlreadyExists
    rfl rfl rfl rfl
  exact ⟨h.1.1 rfl, h.2.2 { name := none, createTime := none, updateTime := none } rfl rfl⟩

/-- C7: for every resource kind, a delete-phase reconcile whose remote delete
call raises the NotFound error of the transport ends in `destroy()` without
raising: the catch block classifies the error with the per-kind not-found
predicate and swallows it. -/
theorem deleteOnAbsentRemote
    (dprops : DiskProps) (dout : DiskState) (dsa : Option Bool)
    (aprops : ARProps) (aout : ARState) (asa : Option Bool)
    (fprops : FwProps) (fout : FwState) (fsa : Option Bool)
    (iprops : InstProps) (iout : InstState)
    (physicalName project now : String) (hproj : project.isEmpty = false)
    (dcloud : DiskCloud) (acloud : ARCloud) (fcloud : FwCloud) (icloud : InstCloud)
    (de ae fe ie : JSValue)
    (hdsize : ¬(dprops.sizeGb < 10 ∨ dprops.sizeGb > 65536))
    (hdsrc : ¬(strTruthy dprops.sourceImage = true ∧ strTruthy dprops.sourceSnapshot = true))
    (hd : dcloud.deleteRes = .error de) (hdnf : diskIsNotFoundError de = true)
    (ha : acloud.deleteRes = .error ae) (hanf : isNotFoundError ae = true)
    (hf : fcloud.deleteRes = .error fe) (hfnf : isNotFoundError fe = true)
    (hi : icloud.deleteRes = .error ie) (hinf : instanceIsNotFoundError ie = true) :
    (diskReconcile .delete dprops (some dout) dsa physicalName project now dcloud).1
      = .ok .destroyed ∧
    (arReconcile .delete aprops (some aout) asa false physicalName project now acloud).1
      = .ok .destroyed ∧
    (fwReconcile .delete fprops (some fout) fsa false physicalName project now fcloud).1
      = .ok .destroyed ∧
    (instanceReconcile .delete iprops (some iout) physicalName project now icloud).1
      = .ok .destroyed := by
  refine ⟨?_, ?_, ?_, ?_⟩
  · simp only [diskReconcile, hproj, Bool.false_eq_true, if_false, if_neg hdsize,
      if_neg hdsrc]
    split
    · simp [hd, hdnf]
    · rfl
  · simp only [arReconcile, hproj, Bool.false_eq_true, if_false]
    split
    · simp [ha, hanf]
    · rfl
  · simp only [fwReconcile, hproj, Bool.false_eq_true, if_false]
    split
    · simp [hf, hfnf]
    · rfl
  · simp only [instanceReconcile, hproj, Bool.false_eq_true, if_false]
    split
    · simp [hi, hinf]
    · rfl

/-- C3 (counterexample): an ArtifactRegistry update whose desired
`description` equals the recorded/current description still issues an
`updateRepository` mutation, because the update mask is built from which
mutable props are *supplied*, not from which ones differ. -/
theorem arEqualDescriptionStillUpdates :
    (arReconcile .update arSameDescProps (some arSameDescState) none false
      "ph" "p1" "now" trivialARCloud).2
      = [.updateRepository (arRepositoryPath "p1" "us-central1" "r1")
          ["description"]] := rfl

/-- C3 (amended): with desired mutable attributes equal to the current remote
values, Disk and Instance updates issue zero mutation calls (they diff labels
and tags against the freshly read remote object); ArtifactRegistry issues
zero mutation calls only when no mutable attribute (description, labels,
immutableTags) is supplied at all — supplying one, even unchanged, triggers
an update call. -/
theorem updateIdempotence
    (dprops : DiskProps) (od : DiskState) (dsa : Option Bool) (dcloud : DiskCloud)
    (iprops : InstProps) (oi : InstState) (icloud : InstCloud)
    (aprops : ARProps) (oa : ARState) (asa : Option Bool) (acloud : ARCloud)
    (physicalName project now : String) (hproj : project.isEmpty = false)
    (hdsize : ¬(dprops.sizeGb < 10 ∨ dprops.sizeGb > 65536))
    (hdsrc : ¬(strTruthy dprops.sourceImage = true ∧ strTruthy dprops.sourceSnapshot = true))
    (hdz : od.zone = dprops.zone)
    (hdn : od.name = diskResolvedName dprops (some od) physicalName)
    (hdt : od.diskType = dprops.diskType.getD "pd-standard")
    (hds : od.sizeGb = dprops.sizeGb)
    (hdname : od.name.isEmpty = false)
    (dinfo : DiskInfo) (hdg : dcloud.getRes = .ok dinfo)
    (hdl : dprops.labels = none ∨ dprops.labels = some (dinfo.labels.getD []))
    (hiz : oi.zone = iprops.zone)
    (hin : oi.name = instanceResolvedName iprops (some oi) physicalName)
    (hic : iprops.container.map (fun c => c.imageRef)
      = oi.container.map (fun c => c.imageRef))
    (hip : iprops.container.isSome = oi.container.isSome)
    (hiname : oi.name.isEmpty = false)
    (iinfo : InstInfo) (hig : icloud.getRes = .ok iinfo)
    (hil : iprops.labels = none ∨ iprops.labels = some (iinfo.labels.getD []))
    (hit : iprops.tags = none ∨ ∃ ts, iprops.tags = some ts ∧
      sortStrings ts = sortStrings (iinfo.tagsItems.getD []))
    (haz : oa.location = aprops.location)
    (han : oa.name = arResolvedName aprops (some oa) physicalName)
    (haf : oa.format = aprops.format.getD "docker")
    (hak : ¬(strTruthy aprops.kmsKeyName = true ∧ oa.kmsKeyName ≠ aprops.kmsKeyName))
    (haname : oa.name.isEmpty = false)
    (hadesc : aprops.description = none) (halab : aprops.labels = none)
    (hatags : aprops.immutableTags = none) :
    diskMutationCount (diskReconcile .update dprops (some od) dsa physicalName
      project now dcloud).2 = 0 ∧
    instanceMutationCount (instanceReconcile .update iprops (some oi) physicalName
      project now icloud).2 = 0 ∧
    arMutationCount (arReconcile .update aprops (some oa) asa false physicalName
      project now acloud).2 = 0 := by
  have hdname2 : (diskResolvedName dprops (some od) physicalName).isEmpty = false :=
    hdn ▸ hdname
  have hiname2 : (instanceResolvedName iprops (some oi) physicalName).isEmpty = false :=
    hin ▸ hiname
  have haname2 : (arResolvedName aprops (some oa) physicalName).isEmpty = false :=
    han ▸ haname
  refine ⟨?_, ?_, ?_⟩
  · rcases hdl with hl | hl <;>
      simp [diskReconcile, diskTrunk, diskUpdateFlow, hproj, if_neg hdsize,
        if_neg hdsrc, hdz, hdn, hdt, hds, hdg, hl, hdname2, strTruthy_some,
        withLog, diskMutationCount, isDiskMutation]
  · rcases hil with hl | hl <;> rcases hit with htg | ⟨ts, hts, hsort⟩
    · simp [instanceReconcile, instanceUpdateFlow, hproj, hiz, hin, hic, hip,
        hig, hl, htg, hiname2, strTruthy_some, withLog,
        instanceMutationCount, isInstanceMutation]
    · simp [instanceReconcile, instanceUpdateFlow, hproj, hiz, hin, hic, hip,
        hig, hl, hts, hsort, hiname2, strTruthy_some, withLog,
        instanceMutationCount, isInstanceMutation]
    · simp [instanceReconcile, instanceUpdateFlow, hproj, hiz, hin, hic, hip,
        hig, hl, htg, hiname2, strTruthy_some, withLog,
        instanceMutationCount, isInstanceMutation]
    · simp [instanceReconcile, instanceUpdateFlow, hproj, hiz, hin, hic, hip,
        hig, hl, hts, hsort, hiname2, strTruthy_some, withLog,
        instanceMutationCount, isInstanceMutation]
  · rcases hag : acloud.getRes with e | repo <;>
      simp [arReconcile, arTrunk, arUpdateMask, hproj, haz, han, haf,
        if_neg hak, haname2, strTruthy_some, hadesc, halab, hatags, hag,
        arMutationCount, isARMutation]

/-- C3 witness: sample resources with no mutable attribute differing issue
zero mutation calls across all three kinds. -/
theorem updateIdempotence_witness :
    diskMutationCount (diskReconcile .update sampleDiskProps
      (some sampleDiskState) none "ph" "p1" "now" trivialDiskCloud).2 = 0 ∧
    instanceMutationCount (instanceReconcile .update sampleInstProps
      (some sampleInstState) "ph" "p1" "now" trivialInstCloud).2 = 0 ∧
    arMutationCount (arReconcile .update sampleARProps (some sampleARState)
      none false "ph" "p1" "now" trivialARCloud).2 = 0 := by
  have h := updateIdempotence sampleDiskProps sampleDiskState none trivialDiskCloud
    sampleInstProps sampleInstState trivialInstCloud
    sampleARProps sampleARState none trivialARCloud
    "ph" "p1" "now" rfl (by decide) (by decide) rfl rfl rfl rfl rfl
    { selfLink := none, status := none, creationTimestamp := none,
      labels := none, labelFingerprint := none } rfl (Or.inl rfl)
    rfl rfl rfl rfl rfl
    { selfLink := none, status := none, creationTimestamp := none,
      labels := none, labelFingerprint := none, tagsItems := none,
      networkIP := none, natIP := none } rfl (Or.inl rfl) (Or.inl rfl)
    rfl rfl rfl (by decide) rfl rfl rfl rfl
  exact h

/-- C4 (counterexample): with a recorded disk of 100 GB, a desired state
asking simultaneously for 10 GB and a different zone returns `replace()` —
the immutable-attribute checks run before the size check, so the shrink is
never validated and no validation error is raised, contrary to the
unconditional reading of the claim. -/
theorem diskShrinkWithZoneChangeReplaces :
    diskReconcile .update diskShrinkAndMoveProps (some sampleDiskState) none
      "ph" "p1" "now" trivialDiskCloud = (.ok .replaced, []) := rfl

/-- C4 (amended): for a Disk update against recorded state, *provided no
immutable attribute (zone, name, diskType) mismatch triggers replacement
first*: a size decrease fails with a validation error before any remote call,
and a size increase issues exactly one resize mutation — the first remote
call — awaits its operation as the very next step, and never results in a
replacement. -/
theorem diskResizeSemantics
    (props : DiskProps) (o : DiskState) (sa : Option Bool)
    (physicalName project now : String) (cloud : DiskCloud)
    (hproj : project.isEmpty = false)
    (hsize : ¬(props.sizeGb < 10 ∨ props.sizeGb > 65536))
    (hsrc : ¬(strTruthy props.sourceImage = true ∧ strTruthy props.sourceSnapshot = true))
    (hz : o.zone = props.zone)
    (hn : o.name = diskResolvedName props (some o) physicalName)
    (ht : o.diskType = props.diskType.getD "pd-standard") :
    (props.sizeGb < o.sizeGb →
      diskReconcile .update props (some o) sa physicalName project now cloud
        = (.error (.validation (diskDecreaseMsg o.sizeGb props.sizeGb)), [])) ∧
    (o.sizeGb < props.sizeGb →
      diskResizeCount (diskReconcile .update props (some o) sa physicalName
        project now cloud).2 = 1 ∧
      (diskReconcile .update props (some o) sa physicalName project now cloud).2.head?
        = some (.resize (diskResolvedName props (some o) physicalName) props.sizeGb) ∧
      (diskReconcile .update props (some o) sa physicalName project now cloud).1
        ≠ .ok .replaced ∧
      (∀ op opName, cloud.resizeRes = .ok op → op.name = some opName →
        ((diskReconcile .update props (some o) sa physicalName project now cloud).2)[1]?
          = some (.waitOp opName))) := by
  constructor
  · intro hdec
    have hne : o.sizeGb ≠ props.sizeGb := by omega
    simp [diskReconcile, hproj, if_neg hsize, if_neg hsrc, hz, hn, ht, hne, hdec]
  · intro hinc
    have hne : o.sizeGb ≠ props.sizeGb := by omega
    have hnlt : ¬(props.sizeGb < o.sizeGb) := by omega
    have hred : diskReconcile .update props (some o) sa physicalName project now cloud
        = diskResizeThenTrunk .update props (some o) sa
            (diskResolvedName props (some o) physicalName) props.zone project
            (props.diskType.getD "pd-standard") props.sizeGb now cloud := by
      simp [diskReconcile, hproj, if_neg hsize, if_neg hsrc, hz, hn, ht, hne, hnlt]
    obtain ⟨h1, h2, h3⟩ := diskResizeThenTrunk_log .update props (some o) sa
      (diskResolvedName props (some o) physicalName) props.zone project
      (props.diskType.getD "pd-standard") props.sizeGb now cloud
    refine ⟨?_, ?_, ?_, ?_⟩
    · rw [hred]; exact h1
    · rw [hred]; exact h2
    · rw [hred]
      exact diskResizeThenTrunk_fst_ne_replaced _ _ _ _ _ _ _ _ _ _ _
    · intro op opName hop hname
      rw [hred]
      exact h3 op opName hop hname

/-- C4 witness: growing the sample disk from 100 GB to 200 GB issues exactly
one resize as the first call and awaits its named operation as the second. -/
theorem diskResizeSemantics_witness :
    diskResizeCount (diskReconcile .update { sampleDiskProps with sizeGb := 200 }
      (some sampleDiskState) none "ph" "p1" "now"
      { trivialDiskCloud with resizeRes := .ok { name := some "op-1" } }).2 = 1 ∧
    ((diskReconcile .update { sampleDiskProps with sizeGb := 200 }
      (some sampleDiskState) none "ph" "p1" "now"
      { trivialDiskCloud with resizeRes := .ok { name := some "op-1" } }).2)[1]?
      = some (.waitOp "op-1") := by
  have h := diskResizeSemantics { sampleDiskProps with sizeGb := 200 }
    sampleDiskState none "ph" "p1" "now"
    { trivialDiskCloud with resizeRes := .ok { name := some "op-1" } }
    rfl (by decide) (by decide) rfl rfl rfl
  have h2 := h.2 (by decide)
  exact ⟨h2.1, h2.2.2.2 { name := some "op-1" } "op-1" rfl rfl⟩

/-- C5: for Disk (immutables zone, name, diskType) and FirewallRule
(immutables name, network, direction), the replacement decision is true iff
some immutable attribute has a desired (resolved) value differing from its recorded
value; when it is true the reconciler returns `replace()` with an empty call
log (no in-place update call), and when it is false `replace()` is never
returned. -/
theorem replacementPolicy
    (dprops : DiskProps) (od : DiskState) (dsa : Option Bool)
    (fprops : FwProps) (ow : FwState) (fsa : Option Bool)
    (physicalName project now : String) (hproj : project.isEmpty = false)
    (dcloud : DiskCloud) (fcloud : FwCloud)
    (hdsize : ¬(dprops.sizeGb < 10 ∨ dprops.sizeGb > 65536))
    (hdsrc : ¬(strTruthy dprops.sourceImage = true ∧ strTruthy dprops.sourceSnapshot = true)) :
    ((diskRequiresReplacement dprops od physicalName = true →
      diskReconcile .update dprops (some od) dsa physicalName project now dcloud
        = (.ok .replaced, [])) ∧
     (diskRequiresReplacement dprops od physicalName = false →
      (diskReconcile .update dprops (some od) dsa physicalName project now dcloud).1
        ≠ .ok .replaced)) ∧
    ((fwRequiresReplacement fprops ow physicalName = true →
      fwReconcile .update fprops (some ow) fsa false physicalName project now fcloud
        = (.ok .replaced, [])) ∧
     (fwRequiresReplacement fprops ow physicalName = false →
      (fwReconcile .update fprops (some ow) fsa false physicalName project now fcloud).1
        ≠ .ok .replaced)) := by
  refine ⟨⟨?_, ?_⟩, ?_, ?_⟩
  · intro h
    by_cases hz : od.zone = dprops.zone
    · by_cases hn : od.name = diskResolvedName dprops (some od) physicalName
      · by_cases ht : od.diskType = dprops.diskType.getD "pd-standard"
        · exfalso
          simp [diskRequiresReplacement, hz, hn, ht] at h
        · simp [diskReconcile, hproj, if_neg hdsize, if_neg hdsrc, hz, hn, ht]
      · simp [diskReconcile, hproj, if_neg hdsize, if_neg hdsrc, hz, hn]
    · simp [diskReconcile, hproj, if_neg hdsize, if_neg hdsrc, hz]
  · intro h
    unfold diskRequiresReplacement at h
    simp only [Bool.or_eq_false_iff, bne_eq_false_iff_eq] at h
    obtain ⟨⟨hz, hn⟩, ht⟩ := h
    by_cases hs : od.sizeGb = dprops.sizeGb
    · simp only [diskReconcile, hproj, Bool.false_eq_true, if_false,
        if_neg hdsize, if_neg hdsrc, hz, hn, ht, hs, ne_eq, not_true_eq_false,
        ite_false, ite_true, not_false_eq_true]
      exact diskTrunk_fst_ne_replaced _ _ _ _ _ _ _ _ _ _ _
    · by_cases hlt : dprops.sizeGb < od.sizeGb
      · simp [diskReconcile, hproj, if_neg hdsize, if_neg hdsrc, hz, hn, ht,
          hs, hlt]
      · simp only [diskReconcile, hproj, Bool.false_eq_true, if_false,
          if_neg hdsize, if_neg hdsrc, hz, hn, ht, ne_eq, not_true_eq_false,
          ite_false, ite_true, not_false_eq_true, hs, if_neg hlt]
        exact diskResizeThenTrunk_fst_ne_replaced _ _ _ _ _ _ _ _ _ _ _
  · intro h
    by_cases hn : ow.name = fwResolvedName fprops (some ow) physicalName
    · by_cases hne : ow.network = fprops.network.getD "default"
      · by_cases hdir : ow.direction = fprops.direction.getD "INGRESS"
        · exfalso
          simp [fwRequiresReplacement, hn, hne, hdir] at h
        · simp [fwReconcile, hproj, hn, hne, hdir]
      · simp [fwReconcile, hproj, hn, hne]
    · simp [fwReconcile, hproj, hn]
  · intro h
    unfold fwRequiresReplacement at h
    simp only [Bool.or_eq_false_iff, bne_eq_false_iff_eq] at h
    obtain ⟨⟨hn, hne⟩, hdir⟩ := h
    simp only [fwReconcile, hproj, Bool.false_eq_true, if_false, hn, hne, hdir,
      ne_eq, not_true_eq_false, ite_false, ite_true, not_false_eq_true]
    exact fwTrunk_fst_ne_replaced _ _ _ _ _ _ _ _ _ _ _

/-- C5 witness: changing the disk type alone forces replacement with no
remote call, and equal immutables never yield replacement. -/
theorem replacementPolicy_witness :
    (diskReconcile .update { sampleDiskProps with diskType := some "pd-standard" }
      (some sampleDiskState) none "ph" "p1" "now" trivialDiskCloud
        = (.ok .replaced, [])) ∧
    ((fwReconcile .update sampleFwProps (some sampleFwState) none false
      "ph" "p1" "now" trivialFwCloud).1 ≠ .ok .replaced) := by
  have h := replacementPolicy { sampleDiskProps with diskType := some "pd-standard" }
    sampleDiskState none sampleFwProps sampleFwState none "ph" "p1" "now" rfl
    trivialDiskCloud trivialFwCloud (by decide) (by decide)
  exact ⟨h.1.1 (by decide), h.2.2 (by decide)⟩

/-- C7 witness: a Disk whose remote delete reports HTTP 404, a repository and
a firewall rule whose remote deletes report gRPC NOT_FOUND, and an instance
whose remote delete reports HTTP 404 all end destroyed. -/
theorem deleteOnAbsentRemote_witness :
    (diskReconcile .delete sampleDiskProps (some sampleDiskState) none
      "ph" "p1" "now" { trivialDiskCloud with deleteRes := .error httpNotFound }).1
      = .ok .destroyed ∧
    (arReconcile .delete sampleARProps (some sampleARState) none false
      "ph" "p1" "now" { trivialARCloud with deleteRes := .error rpcNotFound }).1
      = .ok .destroyed ∧
    (fwReconcile .delete sampleFwProps (some sampleFwState) none false
      "ph" "p1" "now" { trivialFwCloud with deleteRes := .error rpcNotFound }).1
      = .ok .destroyed ∧
    (instanceReconcile .delete sampleInstProps (some sampleInstState)
      "ph" "p1" "now" { trivialInstCloud with deleteRes := .error httpNotFound }).1
      = .ok .destroyed :=
  deleteOnAbsentRemote sampleDiskProps sampleDiskState none
    sampleARProps sampleARState none sampleFwProps sampleFwState none
    sampleInstProps sampleInstState "ph" "p1" "now" rfl
    { trivialDiskCloud with deleteRes := .error httpNotFound }
    { trivialARCloud with deleteRes := .error rpcNotFound }
    { trivialFwCloud with deleteRes := .error rpcNotFound }
    { trivialInstCloud with deleteRes := .error httpNotFound }
    httpNotFound rpcNotFound rpcNotFound httpNotFound
    (by decide) (by decide) rfl rfl rfl rfl rfl rfl rfl rfl

end Alchemy
